import Mathlib

/-!
Shallow embedding of the semantic matching core of the resume-relevance-checker
repository: `config.py`, `embedding_service.py` and `semantic_search.py`.

Modelling conventions:
* Python floats are modelled as rationals (`ℚ`); the cosine computation, which
  takes a square root, is modelled over the reals (`ℝ`).
* Python exceptions are modelled with `Except String`; a `try/except` block is
  a `match` on the `Except` value of the guarded body.
* Python dicts (which preserve insertion order) are ordered association lists.
* External collaborators (the sentence-transformer model, the database, the
  vector store) are records of fallible functions passed as parameters, since
  the source accesses them through `self.embedding_service`, `self.db` and
  `self.vector_store`.
-/

/-- Python `needle in hay` on strings, at the character-list level:
`true` iff `needle` occurs contiguously in `hay`. -/
def hasSubstr : List Char → List Char → Bool
  | [], needle => needle.isEmpty
  | c :: rest, needle => needle.isPrefixOf (c :: rest) || hasSubstr rest needle

/-- Python `needle in hay` for strings. -/
def strContains (hay needle : String) : Bool :=
  hasSubstr hay.toList needle.toList

/-- Python `str.lower()`, at the character-list level (the texts handled by
this program are modelled over the ASCII case mapping of `Char.toLower`). -/
def pyToLower (s : String) : String :=
  String.mk (s.data.map Char.toLower)

/-- Python `str.strip()` with no argument: drop leading and trailing
whitespace. -/
def pyStrip (s : String) : String :=
  String.mk (((s.data.dropWhile Char.isWhitespace).reverse.dropWhile
    Char.isWhitespace).reverse)

/-- Python `str.split()` with no argument: split on whitespace runs,
dropping empty pieces. -/
def pySplitWs (s : String) : List String :=
  ((s.data.splitOnP Char.isWhitespace).map String.mk).filter (fun w => w ≠ "")

/-- Python `str.split('.')`: split on every period, keeping empty pieces. -/
def pySplitDot (s : String) : List String :=
  (s.data.splitOnP (fun c => c = '.')).map String.mk

/-- Python `str.isalpha()`: non-empty and every character alphabetic. -/
def isAlphaStr (w : String) : Bool :=
  !w.data.isEmpty && w.data.all Char.isAlpha

/-- Python `round(x, 2)` (to two decimal places), on rationals. -/
def pyRound2 (x : ℚ) : ℚ :=
  (round (x * 100) : ℤ) / 100

/-- One entry of `config.EMBEDDING_MODELS` (config.py lines 9-38). -/
structure ModelConfig where
  name : String
  description : String
  dimensions : Nat
  performance : String
  quality : String
deriving DecidableEq

/-- `config.EMBEDDING_MODELS` (config.py lines 9-38), as an ordered
association list keyed by model key. -/
def EMBEDDING_MODELS : List (String × ModelConfig) :=
  [("fast",
    { name := "all-MiniLM-L6-v2",
      description := "Fast and lightweight model, good for quick processing",
      dimensions := 384, performance := "Fast", quality := "Good" }),
   ("balanced",
    { name := "all-mpnet-base-v2",
      description := "Balanced performance and quality",
      dimensions := 768, performance := "Medium", quality := "High" }),
   ("high_quality",
    { name := "sentence-transformers/all-roberta-large-v1",
      description := "High quality embeddings, slower processing",
      dimensions := 1024, performance := "Slow", quality := "Very High" }),
   ("multilingual",
    { name := "sentence-transformers/paraphrase-multilingual-MiniLM-L12-v2",
      description := "Supports multiple languages",
      dimensions := 384, performance := "Medium", quality := "Good" })]

/-- `config.DEFAULT_EMBEDDING_MODEL` (config.py line 41): the `EMBEDDING_MODEL`
environment variable is unset in the deployment modelled here, so the default
`"fast"` applies. -/
def DEFAULT_EMBEDDING_MODEL : String := "fast"

/-- The message of the `ValueError` raised by `get_embedding_model_config`
(config.py line 85): `f"Unknown model key: {model_key}. Available:
{list(EMBEDDING_MODELS.keys())}"`. -/
def unknownModelKeyMessage (key : String) : String :=
  "Unknown model key: " ++ key ++
    ". Available: [\x27fast\x27, \x27balanced\x27, \x27high_quality\x27, \x27multilingual\x27]"

/-- `config.get_embedding_model_config` (config.py lines 70-87): `None` falls
back to the default key; an unknown key raises `ValueError`. -/
def get_embedding_model_config (model_key : Option String) : Except String ModelConfig :=
  let key := model_key.getD DEFAULT_EMBEDDING_MODEL
  match EMBEDDING_MODELS.lookup key with
  | some cfg => Except.ok cfg
  | none => Except.error (unknownModelKeyMessage key)

/-- The mutable attributes of `EmbeddingService` (embedding_service.py lines
31-34) that `switch_model` touches; `model_loaded` models whether `self.model`
is a loaded model object (`true`) or `None` (`false`). -/
structure EmbeddingServiceState where
  model_config : ModelConfig
  model_name : String
  model_key : String
  model_loaded : Bool
deriving DecidableEq

/-- `EmbeddingService.switch_model` (embedding_service.py lines 215-227).
`get_embedding_model_config` is called on the right-hand side of the first
assignment, so when it raises, no attribute has been assigned yet and the
error propagates with the state untouched; on success the config, name and key
are updated and `self.model` is reset to `None`. -/
def switch_model (_st : EmbeddingServiceState) (model_key : String) :
    Except String EmbeddingServiceState :=
  match get_embedding_model_config (some model_key) with
  | Except.error e => Except.error e
  | Except.ok cfg =>
      Except.ok { model_config := cfg, model_name := cfg.name,
                  model_key := model_key, model_loaded := false }

/-- The state of the service object after a `switch_model` call completes or
raises: a raised exception aborts the method before any attribute assignment,
leaving the object as it was. -/
def switch_model_run (st : EmbeddingServiceState) (key : String) :
    EmbeddingServiceState :=
  match switch_model st key with
  | Except.ok st2 => st2
  | Except.error _ => st

/-- `EmbeddingService._preprocess_text` (embedding_service.py lines 114-139):
strip, collapse whitespace runs to single spaces, truncate to 512 words. -/
def preprocess_text (text : String) : String :=
  if text = "" then ""
  else
    let ws := pySplitWs (pyStrip text)
    let ws := if ws.length > 512 then ws.take 512 else ws
    String.intercalate " " ws

/-- The external sentence-transformer model behind `EmbeddingService`:
`load` is the outcome of the `SentenceTransformer(...)` constructor
(embedding_service.py line 44), `dim` is
`get_sentence_embedding_dimension()`, and `encode` is `model.encode` on one
text. `model.encode` on a list of texts encodes each element with the same
network, modelled by `batch_encode` below. -/
structure ModelBackend where
  load : Except String Unit
  dim : Nat
  encode : String → Except String (List ℚ)

/-- `model.encode(texts, ...)` on a list: elementwise encoding by the same
model; the call raises iff encoding some element raises. -/
def batch_encode (b : ModelBackend) : List String →
    Except String (List (List ℚ))
  | [] => Except.ok []
  | t :: ts =>
      match b.encode t with
      | Except.error e => Except.error e
      | Except.ok v =>
          match batch_encode b ts with
          | Except.error e => Except.error e
          | Except.ok vs => Except.ok (v :: vs)

/-- The zero vector `np.zeros(d)`. -/
def zeros (d : Nat) : List ℚ :=
  List.replicate d 0

/-- `EmbeddingService._load_model` (embedding_service.py lines 39-48): lazily
load the model; a constructor failure is logged and re-raised (`raise`, line
48). -/
def load_model (b : ModelBackend) (loaded : Bool) : Except String Bool :=
  if loaded then Except.ok true
  else
    match b.load with
    | Except.ok _ => Except.ok true
    | Except.error e => Except.error e

/-- `EmbeddingService.get_embedding_dimension` (embedding_service.py lines
50-53): loads the model, then queries its dimension. -/
def get_embedding_dimension (b : ModelBackend) (loaded : Bool) :
    Except String (Bool × Nat) :=
  match load_model b loaded with
  | Except.error e => Except.error e
  | Except.ok l2 => Except.ok (l2, b.dim)

/-- `EmbeddingService.generate_embedding` (embedding_service.py lines 55-83).
Empty or whitespace-only text returns the zero vector. Otherwise the model is
loaded (outside the `try`, so a load failure propagates), the text is
preprocessed and encoded; an encode failure is caught and the zero vector is
returned. The `Bool` in the result is the updated `self.model`-loaded flag. -/
def generate_embedding (b : ModelBackend) (loaded : Bool) (text : String) :
    Except String (Bool × List ℚ) :=
  if pyStrip text = "" then
    match get_embedding_dimension b loaded with
    | Except.error e => Except.error e
    | Except.ok (l2, d) => Except.ok (l2, zeros d)
  else
    match load_model b loaded with
    | Except.error e => Except.error e
    | Except.ok l2 =>
        match b.encode (preprocess_text text) with
        | Except.ok v => Except.ok (l2, v)
        | Except.error _ =>
            match get_embedding_dimension b l2 with
            | Except.error e => Except.error e
            | Except.ok (l3, d) => Except.ok (l3, zeros d)

/-- `EmbeddingService.generate_embeddings_batch` (embedding_service.py lines
85-112). An empty list returns `[]` before the model is loaded; otherwise the
model is loaded (outside the `try`), all texts are preprocessed and encoded in
one batch; a batch-encode failure is caught and a list of zero vectors is
returned. -/
def generate_embeddings_batch (b : ModelBackend) (loaded : Bool)
    (texts : List String) : Except String (Bool × List (List ℚ)) :=
  if texts = [] then Except.ok (loaded, [])
  else
    match load_model b loaded with
    | Except.error e => Except.error e
    | Except.ok l2 =>
        match batch_encode b (texts.map preprocess_text) with
        | Except.ok vs => Except.ok (l2, vs)
        | Except.error _ =>
            match get_embedding_dimension b l2 with
            | Except.error e => Except.error e
            | Except.ok (l3, d) => Except.ok (l3, texts.map (fun _ => zeros d))

/-- Embedding one text at a time with `generate_embedding`, threading the
loaded-model flag left to right: the reference semantics the batch call is
claimed to refine. -/
def embed_each (b : ModelBackend) (loaded : Bool) :
    List String → Except String (Bool × List (List ℚ))
  | [] => Except.ok (loaded, [])
  | t :: ts =>
      match generate_embedding b loaded t with
      | Except.error e => Except.error e
      | Except.ok (l2, v) =>
          match embed_each b l2 ts with
          | Except.error e => Except.error e
          | Except.ok (l3, vs) => Except.ok (l3, v :: vs)

/-- Dot product `np.dot` of two vectors of reals. -/
def dotp (a b : List ℝ) : ℝ :=
  (List.zipWith (fun x y => x * y) a b).sum

/-- `np.linalg.norm`: the Euclidean norm. -/
noncomputable def vnorm (a : List ℝ) : ℝ :=
  Real.sqrt (dotp a a)

/-- `EmbeddingService.calculate_similarity` (embedding_service.py lines
141-170), over the reals: if either norm is zero, return `0.0` without
dividing; otherwise rescale the cosine by `(cos + 1) / 2` and clamp to
`[0, 1]` with `max(0.0, min(1.0, ...))`. -/
noncomputable def calculate_similarity (e1 e2 : List ℝ) : ℝ :=
  if vnorm e1 = 0 ∨ vnorm e2 = 0 then 0
  else max 0 (min 1 ((dotp e1 e2 / (vnorm e1 * vnorm e2) + 1) / 2))

/-- `SemanticSearchService._determine_verdict` (semantic_search.py lines
89-96). -/
def determine_verdict (relevance : ℚ) : String :=
  if relevance ≥ 70 then "High"
  else if relevance ≥ 40 then "Medium"
  else "Low"

/-- The embedding-service collaborator as `SemanticSearchService` sees it
(`self.embedding_service`): both calls may raise, since `generate_embedding`
re-raises model-load failures and `calculate_similarity` is invoked on
whatever the service returns. -/
structure EmbeddingServiceOps where
  generate_embedding : String → Except String (List ℚ)
  calculate_similarity : List ℚ → List ℚ → Except String ℚ
  model_name : String

/-- A resume row from `DatabaseManager.get_resume_by_id`, restricted to the
fields `_store_resume_embedding` reads (semantic_search.py lines 107-114). -/
structure ResumeRecord where
  filename : String
  candidate_name : String
  job_role : String
  email : String

/-- A job-description row from `DatabaseManager.get_job_description_by_id`,
restricted to the fields `_store_jd_embedding` reads (semantic_search.py
lines 140-147). -/
structure JDRecord where
  filename : String
  company : String
  role : String
  location : String

/-- The metadata dict built in `_store_resume_embedding` (semantic_search.py
lines 107-114). -/
structure ResumeMetadata where
  resume_id : Int
  filename : String
  candidate_name : String
  job_role : String
  email : String
  created_at : String

/-- The metadata dict built in `_store_jd_embedding` (semantic_search.py
lines 140-147). -/
structure JDMetadata where
  jd_id : Int
  filename : String
  company : String
  role : String
  location : String
  created_at : String

/-- The database and vector-store collaborators used by the persistence
hand-off (`self.db`, `self.vector_store`): every call may raise. `now` models
`datetime.now().isoformat()`. (In the repository, `VectorStore.add_resume_embedding`
and `add_job_description_embedding` do not even accept an `embedding` keyword,
so the calls at semantic_search.py lines 116 and 149 raise `TypeError`; that
is one instance of these fallible functions raising.) -/
structure StoreEnv where
  now : String
  get_resume_by_id : Int → Except String (Option ResumeRecord)
  get_job_description_by_id : Int → Except String (Option JDRecord)
  add_resume_embedding : Int → String → List ℚ → ResumeMetadata → Except String Bool
  add_job_description_embedding : Int → String → List ℚ → JDMetadata → Except String Bool
  update_resume_embedding_status : Int → String → Except String Unit
  update_job_description_embedding_status : Int → String → Except String Unit

/-- The `try` body of `SemanticSearchService._store_resume_embedding`
(semantic_search.py lines 100-126): look up the resume, return early when it
is missing, else build metadata, add to the vector store and update the
embedding status. -/
def store_resume_embedding_try (env : StoreEnv) (model_name : String)
    (resume_id : Int) (text : String) (embedding : List ℚ) :
    Except String Unit :=
  match env.get_resume_by_id resume_id with
  | Except.error e => Except.error e
  | Except.ok none => Except.ok ()
  | Except.ok (some rd) =>
      let metadata : ResumeMetadata :=
        { resume_id := resume_id, filename := rd.filename,
          candidate_name := rd.candidate_name, job_role := rd.job_role,
          email := rd.email, created_at := env.now }
      match env.add_resume_embedding resume_id text embedding metadata with
      | Except.error e => Except.error e
      | Except.ok _ =>
          match env.update_resume_embedding_status resume_id model_name with
          | Except.error e => Except.error e
          | Except.ok _ => Except.ok ()

/-- `SemanticSearchService._store_resume_embedding` (semantic_search.py lines
98-129): the whole body is wrapped in `try/except Exception`, which logs and
returns, so the method returns `None` no matter what. -/
def store_resume_embedding (env : StoreEnv) (model_name : String)
    (resume_id : Int) (text : String) (embedding : List ℚ) : Unit :=
  match store_resume_embedding_try env model_name resume_id text embedding with
  | _ => ()

/-- The `try` body of `SemanticSearchService._store_jd_embedding`
(semantic_search.py lines 133-159). -/
def store_jd_embedding_try (env : StoreEnv) (model_name : String)
    (jd_id : Int) (text : String) (embedding : List ℚ) : Except String Unit :=
  match env.get_job_description_by_id jd_id with
  | Except.error e => Except.error e
  | Except.ok none => Except.ok ()
  | Except.ok (some jd) =>
      let metadata : JDMetadata :=
        { jd_id := jd_id, filename := jd.filename, company := jd.company,
          role := jd.role, location := jd.location, created_at := env.now }
      match env.add_job_description_embedding jd_id text embedding metadata with
      | Except.error e => Except.error e
      | Except.ok _ =>
          match env.update_job_description_embedding_status jd_id model_name with
          | Except.error e => Except.error e
          | Except.ok _ => Except.ok ()

/-- `SemanticSearchService._store_jd_embedding` (semantic_search.py lines
131-162): body wrapped in `try/except Exception`, which logs and returns. -/
def store_jd_embedding (env : StoreEnv) (model_name : String) (jd_id : Int)
    (text : String) (embedding : List ℚ) : Unit :=
  match store_jd_embedding_try env model_name jd_id text embedding with
  | _ => ()

/-- The sentence list of `_extract_semantic_keywords` (semantic_search.py line
172): split the job description on periods, strip each piece, keep the pieces
of stripped length `> 10`. -/
def jd_sentences (jd_text : String) : List String :=
  ((pySplitDot jd_text).map pyStrip).filter (fun s => s.length > 10)

/-- The per-sentence term extraction of `_extract_semantic_keywords`
(semantic_search.py lines 188-190): lowercase, whitespace-split, keep
alphabetic words of length `> 3`, take the first 3. -/
def keywords_of_sentence (s : String) : List String :=
  ((pySplitWs (pyToLower s)).filter
    (fun w => w.length > 3 && isAlphaStr w)).take 3

/-- The sentence loop of `_extract_semantic_keywords` (semantic_search.py
lines 177-190): embed each sentence, compare with the resume embedding, and
collect up to 3 key words from each sentence whose similarity is below 0.3. -/
def gather_missing_concepts (ops : EmbeddingServiceOps)
    (resume_embedding : List ℚ) : List String → Except String (List String)
  | [] => Except.ok []
  | s :: rest =>
      match ops.generate_embedding s with
      | Except.error e => Except.error e
      | Except.ok semb =>
          match ops.calculate_similarity semb resume_embedding with
          | Except.error e => Except.error e
          | Except.ok sim =>
              match gather_missing_concepts ops resume_embedding rest with
              | Except.error e => Except.error e
              | Except.ok tail =>
                  Except.ok
                    ((if sim < 3/10 then keywords_of_sentence s else []) ++ tail)

/-- The `try` body of `SemanticSearchService._extract_semantic_keywords`
(semantic_search.py lines 170-193). Python finishes with
`list(set(missing_concepts))[:10]`; the set-to-list order is unspecified
there, so deduplication is modelled by the deterministic `List.dedup` (every
property proved below is independent of the order and of which duplicates
survive). -/
def extract_semantic_keywords_try (ops : EmbeddingServiceOps)
    (_resume_text jd_text : String) (_jd_embedding resume_embedding : List ℚ) :
    Except String (List String) :=
  match gather_missing_concepts ops resume_embedding
      ((jd_sentences jd_text).take 20) with
  | Except.error e => Except.error e
  | Except.ok concepts => Except.ok (concepts.dedup.take 10)

/-- `SemanticSearchService._extract_semantic_keywords` (semantic_search.py
lines 164-197): any exception is caught and `[]` is returned. -/
def extract_semantic_keywords (ops : EmbeddingServiceOps)
    (resume_text jd_text : String) (jd_embedding resume_embedding : List ℚ) :
    List String :=
  match extract_semantic_keywords_try ops resume_text jd_text jd_embedding
      resume_embedding with
  | Except.ok l => l
  | Except.error _ => []

/-- The technical-skill catalog (semantic_search.py lines 202-207). -/
def tech_skills : List String :=
  ["python", "java", "javascript", "react", "angular", "vue",
   "sql", "mongodb", "postgresql", "mysql", "docker", "kubernetes",
   "aws", "azure", "gcp", "machine learning", "ai", "data science",
   "tensorflow", "pytorch", "scikit-learn", "pandas", "numpy"]

/-- The soft-skill catalog (semantic_search.py lines 225-228). -/
def soft_skills : List String :=
  ["communication", "leadership", "teamwork", "problem solving",
   "analytical", "creative", "adaptable", "organized", "detail oriented"]

/-- `SemanticSearchService._analyze_technical_skills` (semantic_search.py
lines 199-220). The Python loop inserts into a dict in catalog order with
distinct keys, which is exactly an ordered association list built by
`filterMap` over the catalog. -/
def analyze_technical_skills (resume_text jd_text : String) :
    List (String × Int) :=
  tech_skills.filterMap (fun skill =>
    if strContains (pyToLower jd_text) skill then
      some (skill, if strContains (pyToLower resume_text) skill then 85 else 20)
    else none)

/-- `SemanticSearchService._analyze_soft_skills` (semantic_search.py lines
222-241). -/
def analyze_soft_skills (resume_text jd_text : String) :
    List (String × Int) :=
  soft_skills.filterMap (fun skill =>
    if strContains (pyToLower jd_text) skill then
      some (skill, if strContains (pyToLower resume_text) skill then 80 else 30)
    else none)

/-- The result dict of `analyze_resume_semantic` (semantic_search.py lines
74-82 and 245-253). -/
structure AnalysisResult where
  relevance : ℚ
  verdict : String
  missing_keywords : List String
  technical_skills : List (String × Int)
  soft_skills : List (String × Int)
  similarity_score : ℚ
  analysis_method : String
deriving DecidableEq

/-- `SemanticSearchService._fallback_analysis` (semantic_search.py lines
243-253). -/
def fallback_analysis (_resume_text _jd_text : String) : AnalysisResult :=
  { relevance := 50, verdict := "Medium", missing_keywords := [],
    technical_skills := [], soft_skills := [], similarity_score := 1/2,
    analysis_method := "fallback" }

/-- The `try` body of `SemanticSearchService.analyze_resume_semantic`
(semantic_search.py lines 45-82): embed both texts, compute the similarity,
derive relevance and verdict, hand embeddings to the store when a truthy id
is given (both hand-offs swallow their own exceptions), extract missing
keywords and the two skill maps, and assemble the result. -/
def analyze_resume_semantic_try (ops : EmbeddingServiceOps) (env : StoreEnv)
    (resume_text jd_text : String) (resume_id jd_id : Option Int) :
    Except String AnalysisResult :=
  match ops.generate_embedding resume_text with
  | Except.error e => Except.error e
  | Except.ok resume_embedding =>
  match ops.generate_embedding jd_text with
  | Except.error e => Except.error e
  | Except.ok jd_embedding =>
  match ops.calculate_similarity resume_embedding jd_embedding with
  | Except.error e => Except.error e
  | Except.ok similarity_score =>
    let relevance := pyRound2 (similarity_score * 100)
    let verdict := determine_verdict relevance
    let _u1 : Unit :=
      match resume_id with
      | some rid =>
          if rid ≠ 0 then
            store_resume_embedding env ops.model_name rid resume_text
              resume_embedding
          else ()
      | none => ()
    let _u2 : Unit :=
      match jd_id with
      | some jid =>
          if jid ≠ 0 then
            store_jd_embedding env ops.model_name jid jd_text jd_embedding
          else ()
      | none => ()
    let missing_keywords :=
      extract_semantic_keywords ops resume_text jd_text jd_embedding
        resume_embedding
    let technical_skills := analyze_technical_skills resume_text jd_text
    let soft_skills := analyze_soft_skills resume_text jd_text
    Except.ok
      { relevance := relevance, verdict := verdict,
        missing_keywords := missing_keywords.take 10,
        technical_skills := technical_skills, soft_skills := soft_skills,
        similarity_score := similarity_score,
        analysis_method := "semantic_embedding" }

/-- `SemanticSearchService.analyze_resume_semantic` (semantic_search.py lines
30-87): any exception in the `try` body is caught and the fallback result is
returned. -/
def analyze_resume_semantic (ops : EmbeddingServiceOps) (env : StoreEnv)
    (resume_text jd_text : String) (resume_id jd_id : Option Int) :
    AnalysisResult :=
  match analyze_resume_semantic_try ops env resume_text jd_text resume_id
      jd_id with
  | Except.ok r => r
  | Except.error _ => fallback_analysis resume_text jd_text

/-! ## Helper lemmas about substring search -/

theorem isPrefixOf_append_self (xs ys : List Char) :
    xs.isPrefixOf (xs ++ ys) = true := by
  induction xs with
  | nil => simp [List.isPrefixOf]
  | cons c cs ih => simp [List.isPrefixOf, ih]

theorem hasSubstr_nil_needle (ys : List Char) : hasSubstr ys [] = true := by
  cases ys with
  | nil => rfl
  | cons c cs => simp [hasSubstr, List.isPrefixOf]

theorem hasSubstr_append_right (xs ys n : List Char)
    (h : hasSubstr ys n = true) : hasSubstr (xs ++ ys) n = true := by
  induction xs with
  | nil => simpa using h
  | cons c cs ih => simp [hasSubstr, ih]

theorem hasSubstr_middle (xs n ys : List Char) :
    hasSubstr (xs ++ (n ++ ys)) n = true := by
  apply hasSubstr_append_right
  cases n with
  | nil => exact hasSubstr_nil_needle ys
  | cons a as => simp [hasSubstr, isPrefixOf_append_self]

theorem strContains_of_parts (hay needle : String) (pre post : List Char)
    (h : hay.toList = pre ++ (needle.toList ++ post)) :
    strContains hay needle = true := by
  unfold strContains
  rw [h]
  exact hasSubstr_middle pre needle.toList post

theorem unknownModelKeyMessage_toList (key : String) :
    (unknownModelKeyMessage key).toList =
      "Unknown model key: ".toList ++ (key.toList ++
        ". Available: [\x27fast\x27, \x27balanced\x27, \x27high_quality\x27, \x27multilingual\x27]".toList) := by
  show (unknownModelKeyMessage key).data = _
  simp [unknownModelKeyMessage, String.data_append, String.toList]

/-- The state of the process-wide `EmbeddingService()` instance created at
module load time with the default model key (embedding_service.py lines
23-36 and 235): key `"fast"`, its catalog entry, and no model loaded yet. -/
def initial_service_state : EmbeddingServiceState :=
  { model_config :=
      { name := "all-MiniLM-L6-v2",
        description := "Fast and lightweight model, good for quick processing",
        dimensions := 384, performance := "Fast", quality := "Good" },
    model_name := "all-MiniLM-L6-v2", model_key := "fast",
    model_loaded := false }

theorem EMBEDDING_MODELS_lookup_eq_none (key : String)
    (h : key ∉ ["fast", "balanced", "high_quality", "multilingual"]) :
    EMBEDDING_MODELS.lookup key = none := by
  simp only [List.mem_cons, not_or] at h
  obtain ⟨h1, h2, h3, h4, -⟩ := h
  simp [EMBEDDING_MODELS, List.lookup, beq_eq_false_iff_ne.mpr h1,
    beq_eq_false_iff_ne.mpr h2, beq_eq_false_iff_ne.mpr h3,
    beq_eq_false_iff_ne.mpr h4]

/-- C2: for every relevance in [0, 100], `_determine_verdict` maps
`relevance >= 70` to `"High"`, `40 <= relevance < 70` to `"Medium"` and
`relevance < 40` to `"Low"` (half-open boundaries, so 70 is `"High"` and 40
is `"Medium"`). -/
theorem determine_verdict_thresholds (r : ℚ) (h0 : 0 ≤ r) (h100 : r ≤ 100) :
    (70 ≤ r → determine_verdict r = "High") ∧
    (40 ≤ r ∧ r < 70 → determine_verdict r = "Medium") ∧
    (r < 40 → determine_verdict r = "Low") := by
  unfold determine_verdict
  refine ⟨fun h => ?_, fun h => ?_, fun h => ?_⟩
  · split_ifs with a b <;> first | rfl | linarith
  · obtain ⟨hlo, hhi⟩ := h
    split_ifs with a b <;> first | rfl | linarith
  · split_ifs with a b <;> first | rfl | linarith

/-- Witness for C2 at the two boundary relevances 70 and 40. -/
theorem determine_verdict_thresholds_witness :
    (0 ≤ (70 : ℚ) ∧ (70 : ℚ) ≤ 100 ∧ determine_verdict 70 = "High") ∧
    (0 ≤ (40 : ℚ) ∧ (40 : ℚ) ≤ 100 ∧ determine_verdict 40 = "Medium") := by
  constructor
  · exact ⟨by norm_num, by norm_num,
      (determine_verdict_thresholds 70 (by norm_num) (by norm_num)).1
        (by norm_num)⟩
  · exact ⟨by norm_num, by norm_num,
      (determine_verdict_thresholds 40 (by norm_num) (by norm_num)).2.1
        ⟨by norm_num, by norm_num⟩⟩

/-- C8: for every key outside the catalog, `get_embedding_model_config` (and
hence `switch_model`) raises a `ValueError` whose message contains the
invalid key and every valid key, and never substitutes a default model. -/
theorem switch_model_unknown_key (st : EmbeddingServiceState) (key : String)
    (h : key ∉ ["fast", "balanced", "high_quality", "multilingual"]) :
    get_embedding_model_config (some key) =
      Except.error (unknownModelKeyMessage key) ∧
    switch_model st key = Except.error (unknownModelKeyMessage key) ∧
    strContains (unknownModelKeyMessage key) key = true ∧
    ∀ valid ∈ (["fast", "balanced", "high_quality", "multilingual"] :
        List String),
      strContains (unknownModelKeyMessage key) valid = true := by
  have hl := EMBEDDING_MODELS_lookup_eq_none key h
  have hcfg : get_embedding_model_config (some key) =
      Except.error (unknownModelKeyMessage key) := by
    simp [get_embedding_model_config, hl]
  refine ⟨hcfg, by simp [switch_model, hcfg], ?_, ?_⟩
  · exact strContains_of_parts _ _ "Unknown model key: ".toList
      ". Available: [\x27fast\x27, \x27balanced\x27, \x27high_quality\x27, \x27multilingual\x27]".toList
      (unknownModelKeyMessage_toList key)
  · intro valid hv
    unfold strContains
    rw [unknownModelKeyMessage_toList key]
    apply hasSubstr_append_right
    apply hasSubstr_append_right
    simp only [List.mem_cons, List.not_mem_nil, or_false] at hv
    rcases hv with rfl | rfl | rfl | rfl <;> decide

/-- Witness for C8 at the spec scenario key `"turbo"`. -/
theorem switch_model_unknown_key_witness :
    switch_model initial_service_state "turbo" =
      Except.error (unknownModelKeyMessage "turbo") ∧
    strContains (unknownModelKeyMessage "turbo") "turbo" = true ∧
    strContains (unknownModelKeyMessage "turbo") "fast" = true := by
  have h := switch_model_unknown_key initial_service_state "turbo" (by decide)
  exact ⟨h.2.1, h.2.2.1, h.2.2.2 "fast" (by decide)⟩

/-- C10: a `switch_model` call with an invalid key raises before any
attribute assignment, so the service state after the failed call is exactly
the state before it. -/
theorem switch_model_invalid_key_state_unchanged (st : EmbeddingServiceState)
    (key : String)
    (h : key ∉ ["fast", "balanced", "high_quality", "multilingual"]) :
    switch_model st key = Except.error (unknownModelKeyMessage key) ∧
    switch_model_run st key = st := by
  have hl := EMBEDDING_MODELS_lookup_eq_none key h
  have hsw : switch_model st key =
      Except.error (unknownModelKeyMessage key) := by
    simp [switch_model, get_embedding_model_config, hl]
  exact ⟨hsw, by simp [switch_model_run, hsw]⟩

/-- Witness for C10: the failed switch to `"turbo"` leaves the freshly
initialized service state untouched. -/
theorem switch_model_invalid_key_state_unchanged_witness :
    switch_model_run initial_service_state "turbo" = initial_service_state :=
  (switch_model_invalid_key_state_unchanged initial_service_state "turbo"
    (by decide)).2

/-- An embedding-service collaborator whose `embed` always throws (the spec
scenario "embedding provider unavailable/throws on `embed`"). -/
def failing_ops : EmbeddingServiceOps :=
  { generate_embedding := fun _ => Except.error "model unavailable",
    calculate_similarity := fun _ _ => Except.error "model unavailable",
    model_name := "all-MiniLM-L6-v2" }

/-- A store environment whose calls all succeed trivially. -/
def trivial_store_env : StoreEnv :=
  { now := "2026-10-12T00:00:00",
    get_resume_by_id := fun _ => Except.ok none,
    get_job_description_by_id := fun _ => Except.ok none,
    add_resume_embedding := fun _ _ _ _ => Except.ok true,
    add_job_description_embedding := fun _ _ _ _ => Except.ok true,
    update_resume_embedding_status := fun _ _ => Except.ok (),
    update_job_description_embedding_status := fun _ _ => Except.ok () }

/-- C1: whenever the `try` body of `analyze_resume_semantic` raises, the call
returns exactly the fallback result `{relevance: 50.0, verdict: "Medium",
missing_keywords: [], technical_skills: {}, soft_skills: {},
similarity_score: 0.5, analysis_method: "fallback"}` instead of propagating
the exception. -/
theorem analyze_fallback_on_error (ops : EmbeddingServiceOps) (env : StoreEnv)
    (resume_text jd_text : String) (resume_id jd_id : Option Int) (e : String)
    (h : analyze_resume_semantic_try ops env resume_text jd_text resume_id
        jd_id = Except.error e) :
    analyze_resume_semantic ops env resume_text jd_text resume_id jd_id =
      { relevance := 50, verdict := "Medium", missing_keywords := [],
        technical_skills := [], soft_skills := [], similarity_score := 1/2,
        analysis_method := "fallback" } := by
  unfold analyze_resume_semantic
  rw [h]
  rfl

/-- Witness for C1: with an embedding provider that throws on `embed`, the
body raises and the analysis returns the exact fallback payload. -/
theorem analyze_fallback_on_error_witness :
    analyze_resume_semantic_try failing_ops trivial_store_env "resume text"
      "jd text" none none = Except.error "model unavailable" ∧
    analyze_resume_semantic failing_ops trivial_store_env "resume text"
      "jd text" none none =
      { relevance := 50, verdict := "Medium", missing_keywords := [],
        technical_skills := [], soft_skills := [], similarity_score := 1/2,
        analysis_method := "fallback" } := by
  have h : analyze_resume_semantic_try failing_ops trivial_store_env
      "resume text" "jd text" none none = Except.error "model unavailable" :=
    rfl
  exact ⟨h, analyze_fallback_on_error failing_ops trivial_store_env
    "resume text" "jd text" none none "model unavailable" h⟩

/-- C9: the persistence hand-off never influences the returned analysis: for
any two store environments (including ones whose every call raises) and any
ids, the analysis with ids equals the analysis of the same texts without ids,
field for field. The hand-off exceptions are caught inside
`_store_resume_embedding` / `_store_jd_embedding`, whose results the
orchestrator discards. -/
theorem analyze_ignores_store_env_and_ids (ops : EmbeddingServiceOps)
    (env env2 : StoreEnv) (resume_text jd_text : String)
    (resume_id jd_id : Option Int) :
    analyze_resume_semantic ops env resume_text jd_text resume_id jd_id =
      analyze_resume_semantic ops env2 resume_text jd_text none none := rfl

/-- C7: the skill-coverage maps contain exactly the catalog skills occurring
(case-insensitively) in the job description; a technical skill scores 85 when
it also occurs in the resume and 20 otherwise, a soft skill 80 / 30. -/
theorem skills_maps_exact (resume_text jd_text : String) :
    (∀ p ∈ analyze_technical_skills resume_text jd_text,
        p.1 ∈ tech_skills ∧ strContains (pyToLower jd_text) p.1 = true ∧
        p.2 = if strContains (pyToLower resume_text) p.1 then 85 else 20) ∧
    (∀ skill ∈ tech_skills, strContains (pyToLower jd_text) skill = true →
        (skill, if strContains (pyToLower resume_text) skill then (85 : Int)
          else 20) ∈ analyze_technical_skills resume_text jd_text) ∧
    (∀ p ∈ analyze_soft_skills resume_text jd_text,
        p.1 ∈ soft_skills ∧ strContains (pyToLower jd_text) p.1 = true ∧
        p.2 = if strContains (pyToLower resume_text) p.1 then 80 else 30) ∧
    (∀ skill ∈ soft_skills, strContains (pyToLower jd_text) skill = true →
        (skill, if strContains (pyToLower resume_text) skill then (80 : Int)
          else 30) ∈ analyze_soft_skills resume_text jd_text) := by
  refine ⟨?_, ?_, ?_, ?_⟩
  · intro p hp
    simp only [analyze_technical_skills, List.mem_filterMap] at hp
    obtain ⟨skill, hs, hf⟩ := hp
    split_ifs at hf with hc hr
    · cases hf
      exact ⟨hs, hc, by simp [hr]⟩
    · cases hf
      exact ⟨hs, hc, by simp [hr]⟩
  · intro skill hs hc
    simp only [analyze_technical_skills, List.mem_filterMap]
    exact ⟨skill, hs, by rw [if_pos hc]⟩
  · intro p hp
    simp only [analyze_soft_skills, List.mem_filterMap] at hp
    obtain ⟨skill, hs, hf⟩ := hp
    split_ifs at hf with hc hr
    · cases hf
      exact ⟨hs, hc, by simp [hr]⟩
    · cases hf
      exact ⟨hs, hc, by simp [hr]⟩
  · intro skill hs hc
    simp only [analyze_soft_skills, List.mem_filterMap]
    exact ⟨skill, hs, by rw [if_pos hc]⟩

/-- The resume text of the spec's skill-scoring scenario. -/
def scenario_resume : String :=
  "Experienced Python developer with SQL and AWS skills"

/-- The job-description text of the spec's skill-scoring scenario. -/
def scenario_jd : String :=
  "Looking for a Python developer with SQL, AWS, and Kubernetes experience. Must have strong communication skills."

/-- Witness for C7 on the spec scenario: `python` scores 85, `kubernetes`
(required but absent from the resume) scores 20, `communication` (in the JD
but not in this resume text) scores 30, and `java` (absent from the JD) does
not appear at all. -/
theorem skills_maps_exact_witness :
    ("python", (85 : Int)) ∈
      analyze_technical_skills scenario_resume scenario_jd ∧
    ("kubernetes", (20 : Int)) ∈
      analyze_technical_skills scenario_resume scenario_jd ∧
    ("communication", (30 : Int)) ∈
      analyze_soft_skills scenario_resume scenario_jd ∧
    ¬ ∃ v, ("java", v) ∈
      analyze_technical_skills scenario_resume scenario_jd := by
  have h := skills_maps_exact scenario_resume scenario_jd
  refine ⟨?_, ?_, ?_, ?_⟩
  · have hm := h.2.1 "python" (by decide) (by decide)
    rwa [if_pos (show strContains (pyToLower scenario_resume) "python" = true
      by decide)] at hm
  · have hm := h.2.1 "kubernetes" (by decide) (by decide)
    rwa [if_neg (show ¬ strContains (pyToLower scenario_resume) "kubernetes"
        = true by decide)] at hm
  · have hm := h.2.2.2 "communication" (by decide) (by decide)
    rwa [if_neg (show ¬ strContains (pyToLower scenario_resume)
        "communication" = true by decide)] at hm
  · rintro ⟨v, hv⟩
    have hc : strContains (pyToLower scenario_jd) "java" = true :=
      (h.1 _ hv).2.1
    exact absurd hc (by decide)

/-- A backend whose `SentenceTransformer` constructor raises. -/
def failing_load_backend : ModelBackend :=
  { load := Except.error "model load failed", dim := 3,
    encode := fun _ => Except.ok [1, 0, 0] }

/-- A backend that loads but whose `encode` always raises. -/
def flaky_encode_backend : ModelBackend :=
  { load := Except.ok (), dim := 2,
    encode := fun _ => Except.error "encode failed" }

/-- Counterexample to C3 as stated: `_load_model` is called outside the
`try` block of `generate_embedding` and re-raises, so a model-load failure
propagates out of `generate_embedding` instead of being turned into a zero
vector. -/
theorem generate_embedding_load_error_propagates :
    generate_embedding failing_load_backend false "hello" =
      Except.error "model load failed" ∧
    generate_embeddings_batch failing_load_backend false ["hello"] =
      Except.error "model load failed" :=
  ⟨rfl, rfl⟩

theorem get_embedding_dimension_loaded (b : ModelBackend) :
    get_embedding_dimension b true = Except.ok (true, b.dim) := rfl

theorem load_model_ok_true (b : ModelBackend) (loaded : Bool) (x : Bool)
    (h : load_model b loaded = Except.ok x) : x = true := by
  unfold load_model at h
  cases loaded with
  | true => cases h; rfl
  | false =>
      cases hb : b.load with
      | ok u => rw [hb] at h; cases h; rfl
      | error e => rw [hb] at h; cases h

/-- C3 (amended): provided `_load_model` succeeds (the model is already
loaded, or its constructor succeeds), `generate_embedding` never raises, an
encode failure yields the zero vector, and `generate_embeddings_batch`
likewise never raises and yields a list of zero vectors when the batch
encode fails. -/
theorem generate_embedding_encode_failure_recovered (b : ModelBackend)
    (loaded : Bool) (text : String) (texts : List String)
    (h : loaded = true ∨ b.load = Except.ok ()) :
    (∃ lv, generate_embedding b loaded text = Except.ok lv) ∧
    (∀ e, pyStrip text ≠ "" →
        b.encode (preprocess_text text) = Except.error e →
        generate_embedding b loaded text = Except.ok (true, zeros b.dim)) ∧
    (∃ lvs, generate_embeddings_batch b loaded texts = Except.ok lvs) ∧
    (∀ e, texts ≠ [] →
        batch_encode b (texts.map preprocess_text) = Except.error e →
        generate_embeddings_batch b loaded texts =
          Except.ok (true, texts.map (fun _ => zeros b.dim))) := by
  have hl : load_model b loaded = Except.ok true := by
    rcases h with h | h
    · subst h; rfl
    · cases loaded
      · simp [load_model, h]
      · rfl
  refine ⟨?_, ?_, ?_, ?_⟩
  · by_cases hb : pyStrip text = ""
    · exact ⟨(true, zeros b.dim),
        by simp [generate_embedding, hb, get_embedding_dimension, hl]⟩
    · rcases he : b.encode (preprocess_text text) with e | v
      · exact ⟨(true, zeros b.dim), by
          simp [generate_embedding, hb, hl, he,
            get_embedding_dimension_loaded]⟩
      · exact ⟨(true, v), by simp [generate_embedding, hb, hl, he]⟩
  · intro e hb he
    simp [generate_embedding, hb, hl, he, get_embedding_dimension_loaded]
  · cases texts with
    | nil => exact ⟨(loaded, []), rfl⟩
    | cons t ts =>
        rcases he : batch_encode b ((t :: ts).map preprocess_text) with e | vs
        all_goals simp only [List.map_cons] at he
        · exact ⟨(true, (t :: ts).map (fun _ => zeros b.dim)), by
            simp [generate_embeddings_batch, hl, he,
              get_embedding_dimension_loaded]⟩
        · exact ⟨(true, vs), by simp [generate_embeddings_batch, hl, he]⟩
  · intro e hne he
    cases texts with
    | nil => exact absurd rfl hne
    | cons t ts =>
        simp only [List.map_cons] at he
        simp [generate_embeddings_batch, hl, he,
          get_embedding_dimension_loaded]

/-- Witness for the amended C3: with a loadable model whose encoder throws,
both embedding calls return zero vectors instead of raising. -/
theorem generate_embedding_encode_failure_recovered_witness :
    generate_embedding flaky_encode_backend false "some text" =
      Except.ok (true, zeros 2) ∧
    generate_embeddings_batch flaky_encode_backend false ["some text"] =
      Except.ok (true, [zeros 2]) := by
  have h := generate_embedding_encode_failure_recovered flaky_encode_backend
    false "some text" ["some text"] (Or.inr rfl)
  exact ⟨h.2.1 "encode failed" (by decide) rfl,
    h.2.2.2 "encode failed" (by decide) rfl⟩

/-- C4: `calculate_similarity` is total with values in [0, 1]; when either
vector has zero norm the division is never reached and the result is exactly
0 (modelling that no NaN is produced). -/
theorem calculate_similarity_bounds (e1 e2 : List ℝ) :
    0 ≤ calculate_similarity e1 e2 ∧ calculate_similarity e1 e2 ≤ 1 ∧
    (vnorm e1 = 0 ∨ vnorm e2 = 0 → calculate_similarity e1 e2 = 0) := by
  unfold calculate_similarity
  by_cases hz : vnorm e1 = 0 ∨ vnorm e2 = 0
  · simp [hz]
  · rw [if_neg hz]
    exact ⟨le_max_left 0 _,
      max_le zero_le_one (min_le_left 1 _),
      fun h => absurd h hz⟩

/-- Witness for C4: similarity against the zero vector is exactly 0. -/
theorem calculate_similarity_bounds_witness :
    calculate_similarity [(0 : ℝ), 0] [1, 2] = 0 :=
  (calculate_similarity_bounds [(0 : ℝ), 0] [1, 2]).2.2
    (Or.inl (by simp [vnorm, dotp]))

/-- A backend that loads and encodes every text (including the empty string)
to the vector `[1]`; real sentence-transformer models likewise return nonzero
vectors for the empty string. -/
def unit_backend : ModelBackend :=
  { load := Except.ok (), dim := 1, encode := fun _ => Except.ok [1] }

/-- Counterexample to C5 as stated: for a whitespace-only text, the batch
path hands the preprocessed empty string to `model.encode`, while the
single-text path short-circuits to the zero vector before reaching the
model, so the two produce different vectors. -/
theorem batch_embedding_differs_on_whitespace_text :
    generate_embeddings_batch unit_backend false [" "] =
      Except.ok (true, [[(1 : ℚ)]]) ∧
    embed_each unit_backend false [" "] =
      Except.ok (true, [[(0 : ℚ)]]) ∧
    generate_embeddings_batch unit_backend false [" "] ≠
      embed_each unit_backend false [" "] := by
  have h1 : generate_embeddings_batch unit_backend false [" "] =
      Except.ok (true, [[(1 : ℚ)]]) := rfl
  have h2 : embed_each unit_backend false [" "] =
      Except.ok (true, [[(0 : ℚ)]]) := rfl
  refine ⟨h1, h2, ?_⟩
  rw [h1, h2]
  simp

theorem embed_all_ok (b : ModelBackend) :
    ∀ texts : List String,
    (∀ t ∈ texts, pyStrip t ≠ "" ∧
        ∃ v, b.encode (preprocess_text t) = Except.ok v) →
    ∃ vs, batch_encode b (texts.map preprocess_text) = Except.ok vs ∧
      embed_each b true texts = Except.ok (true, vs) := by
  intro texts
  induction texts with
  | nil => exact fun _ => ⟨[], rfl, rfl⟩
  | cons t ts ih =>
      intro h
      obtain ⟨hne, v, hv⟩ := h t (List.mem_cons_self t ts)
      obtain ⟨vs, hbe, hee⟩ := ih (fun u hu => h u (List.mem_cons_of_mem t hu))
      refine ⟨v :: vs, ?_, ?_⟩
      · simp [batch_encode, hv, hbe]
      · simp [embed_each, generate_embedding, hne, hv, hee, load_model]

/-- C5 (amended): batch embedding coincides with embedding one text at a
time for every list of texts that are not whitespace-only and that the model
encodes successfully (batch `model.encode` being elementwise single-text
encoding). -/
theorem batch_refines_single (b : ModelBackend) (loaded : Bool)
    (texts : List String)
    (h : ∀ t ∈ texts, pyStrip t ≠ "" ∧
        ∃ v, b.encode (preprocess_text t) = Except.ok v) :
    generate_embeddings_batch b loaded texts = embed_each b loaded texts := by
  cases texts with
  | nil => rfl
  | cons t ts =>
      obtain ⟨hne, v, hv⟩ := h t (List.mem_cons_self t ts)
      obtain ⟨vs, hbe, hee⟩ :=
        embed_all_ok b ts (fun u hu => h u (List.mem_cons_of_mem t hu))
      rcases hlm : load_model b loaded with e | lb
      · simp [generate_embeddings_batch, embed_each, generate_embedding, hne,
          hlm]
      · have hlb := load_model_ok_true b loaded lb hlm
        subst hlb
        simp [generate_embeddings_batch, embed_each, generate_embedding, hne,
          hlm, hv, hee, batch_encode, hbe]

/-- Witness for the amended C5 on two ordinary texts. -/
theorem batch_refines_single_witness :
    generate_embeddings_batch unit_backend false ["hello", "world"] =
      embed_each unit_backend false ["hello", "world"] := by
  apply batch_refines_single
  intro t ht
  simp only [List.mem_cons, List.not_mem_nil, or_false] at ht
  rcases ht with rfl | rfl
  · exact ⟨by decide, [1], rfl⟩
  · exact ⟨by decide, [1], rfl⟩

theorem gather_missing_concepts_mem (ops : EmbeddingServiceOps)
    (rv : List ℚ) :
    ∀ (ss : List String) (l : List String),
    gather_missing_concepts ops rv ss = Except.ok l →
    ∀ w ∈ l, ∃ s ∈ ss,
      (∃ emb sim, ops.generate_embedding s = Except.ok emb ∧
        ops.calculate_similarity emb rv = Except.ok sim ∧ sim < 3/10) ∧
      w ∈ keywords_of_sentence s := by
  intro ss
  induction ss with
  | nil =>
      intro l h w hw
      injection h with h'
      subst h'
      cases hw
  | cons s rest ih =>
      intro l h w hw
      simp only [gather_missing_concepts] at h
      rcases hge : ops.generate_embedding s with e | emb
      · simp only [hge] at h
        exact Except.noConfusion h
      simp only [hge] at h
      rcases hcs : ops.calculate_similarity emb rv with e | sim
      · simp only [hcs] at h
        exact Except.noConfusion h
      simp only [hcs] at h
      rcases hg : gather_missing_concepts ops rv rest with e | tail
      · simp only [hg] at h
        exact Except.noConfusion h
      simp only [hg] at h
      injection h with h'
      subst h'
      rcases List.mem_append.mp hw with hw1 | hw2
      · by_cases hlt : sim < 3/10
        · rw [if_pos hlt] at hw1
          exact ⟨s, List.mem_cons_self s rest,
            ⟨emb, sim, hge, hcs, hlt⟩, hw1⟩
        · rw [if_neg hlt] at hw1
          cases hw1
      · obtain ⟨s2, hs2, hsim, hkw⟩ := ih tail hg w hw2
        exact ⟨s2, List.mem_cons_of_mem s hs2, hsim, hkw⟩

/-- C6: `_extract_semantic_keywords` returns at most 10 terms, without
duplicates, and every returned term is an alphabetic word of length > 3,
taken (at most 3 per sentence) from the lowercased whitespace-split of a
period-split, stripped JD sentence of length > 10 among the first 20 such
sentences, whose embedding scores similarity below 0.3 against the resume
embedding. -/
theorem extract_semantic_keywords_spec (ops : EmbeddingServiceOps)
    (resume_text jd_text : String)
    (jd_embedding resume_embedding : List ℚ) :
    (extract_semantic_keywords ops resume_text jd_text jd_embedding
      resume_embedding).length ≤ 10 ∧
    (extract_semantic_keywords ops resume_text jd_text jd_embedding
      resume_embedding).Nodup ∧
    ∀ w ∈ extract_semantic_keywords ops resume_text jd_text jd_embedding
        resume_embedding,
      ∃ s ∈ (jd_sentences jd_text).take 20,
        (∃ emb sim, ops.generate_embedding s = Except.ok emb ∧
            ops.calculate_similarity emb resume_embedding = Except.ok sim ∧
            sim < 3/10) ∧
        w ∈ keywords_of_sentence s ∧ w ∈ pySplitWs (pyToLower s) ∧
        w.length > 3 ∧ isAlphaStr w = true := by
  rcases hg : gather_missing_concepts ops resume_embedding
      ((jd_sentences jd_text).take 20) with e | concepts
  · simp only [extract_semantic_keywords, extract_semantic_keywords_try, hg]
    simp
  · simp only [extract_semantic_keywords, extract_semantic_keywords_try, hg]
    refine ⟨?_, ?_, ?_⟩
    · simpa using min_le_left 10 concepts.dedup.length
    · exact (List.nodup_dedup concepts).sublist (List.take_sublist 10 _)
    · intro w hw
      have hw' : w ∈ concepts :=
        List.mem_dedup.mp (List.mem_of_mem_take hw)
      obtain ⟨s, hs, hsim, hkw⟩ :=
        gather_missing_concepts_mem ops resume_embedding _ concepts hg w hw'
      have h1 := List.mem_of_mem_take (by simpa [keywords_of_sentence] using hkw)
      obtain ⟨hmem, hpred⟩ := List.mem_filter.mp h1
      rw [Bool.and_eq_true] at hpred
      obtain ⟨hlen, halpha⟩ := hpred
      exact ⟨s, hs, hsim, hkw, hmem, of_decide_eq_true hlen, halpha⟩

/-- An embedding-service collaborator that embeds every sentence to `[1]`
and scores every similarity 0 (below the 0.3 cutoff). -/
def const_ops : EmbeddingServiceOps :=
  { generate_embedding := fun _ => Except.ok [1],
    calculate_similarity := fun _ _ => Except.ok 0,
    model_name := "all-MiniLM-L6-v2" }

/-- Witness for C6 at a concrete job description with two qualifying
sentences. -/
theorem extract_semantic_keywords_spec_witness :
    (extract_semantic_keywords const_ops "resume text"
      "We require python and docker. Strong communication is needed."
      [] []).length ≤ 10 ∧
    (extract_semantic_keywords const_ops "resume text"
      "We require python and docker. Strong communication is needed."
      [] []).Nodup :=
  ⟨(extract_semantic_keywords_spec const_ops "resume text"
      "We require python and docker. Strong communication is needed."
      [] []).1,
   (extract_semantic_keywords_spec const_ops "resume text"
      "We require python and docker. Strong communication is needed."
      [] []).2.1⟩
